import Mathlib

/-!
Shallow embedding of the `hyperspace-cosmos` chain adapter
(`src/hyperspace/cosmos/src/lib.rs` and `src/hyperspace/cosmos/src/provider.rs`)
of the `centauri` repository, together with theorems settling the claims of
the natural-language specification against the code.

Network calls are modelled by explicit oracle parameters (a function from a
request to a response); each embedded operation additionally returns the list
of requests it issued, so that properties about "no network call is made"
become statements about that list.  Machine integers are modelled as `Nat`;
the only overflow-sensitive conversion in scope is
`tendermint::block::Height::try_from(u64)`, which fails above `i64::MAX`.
-/

set_option autoImplicit false

namespace Centauri

/-- IBC `Height` (`ibc::core::ics02_client::height::Height`): a
(revision number, revision height) pair. -/
structure Height where
  revision_number : Nat
  revision_height : Nat
deriving DecidableEq, Repr

/-- `i64::MAX`, the largest value representable by `tendermint::block::Height`. -/
def I64_MAX : Nat := 2 ^ 63 - 1

/-- `tendermint::block::Height::try_from(u64)`: succeeds exactly when the value
fits in a signed 64-bit integer (the tendermint height domain). -/
def tmHeightTryFrom (h : Nat) : Option Nat :=
  if h ≤ I64_MAX then some h else none

/-- The errors produced by the adapter (`hyperspace_cosmos::error::Error`).
The source builds almost all of them from formatted strings
(`Error::from(format!(..))`); each distinct format template in the embedded
code becomes one constructor here, carrying the template's parameters.
`rpcError` models `Error::RpcError`; `panic` models a Rust panic (an
`unwrap`/`expect` on a failing value), which is not an `Error` value at all
but aborts the computation. -/
inductive Error where
  | rpcError (msg : String)
  | invalidHeight
  | cannotProve (pathName : String)
  | failedQueryChain (name : String)
  | queryFailed (code : Nat) (log : String)
  | nodeSyncing
  | invalidClientId
  | lightClientInitFailed (name : String)
  | invalidStorePref
  | invalidClientState
  | invalidLightBlock
  | decodeError
  | grpcError (msg : String)
  | txSearchFailed
  | txTimeout
  | txFailed (code : Nat) (log : String)
  | unexpectedEventCount (count : Nat)
  | panic
deriving DecidableEq, Repr

/-- An ABCI query path (`ibc::core::ics24_host::Path`), abstracted to its
rendered string and its provability flag: the adapter only consumes a path
through `Display`/`into_bytes` and through `Path::is_provable`. -/
structure Path where
  pathName : String
  provable : Bool
deriving DecidableEq, Repr

/-- `Path::is_provable` from the `ibc` crate, consumed opaquely by the adapter. -/
def Path.is_provable (p : Path) : Bool := p.provable

/-- The well-known ABCI application path `IBC_QUERY_PATH`. -/
def IBC_QUERY_PATH : String := "store/ibc/key"

/-- An outgoing `abci_query` RPC request: ABCI path, key data, optional height
(`none` queries the node's current head) and the prove flag. -/
structure AbciRequest where
  path : String
  data : String
  height : Option Nat
  prove : Bool
deriving DecidableEq, Repr

/-- An `abci_query` RPC response (`tendermint_rpc::endpoint::abci_query::AbciQuery`):
response code (`0` is success), log, value bytes and proof bytes (`[]` models
an absent proof). -/
structure AbciQuery where
  code : Nat
  log : String
  value : List Nat
  proof : List Nat
deriving DecidableEq, Repr

/-- The RPC transport for `abci_query`, as an oracle from request to result. -/
def AbciNet : Type := AbciRequest → Except Error AbciQuery

/-- `CosmosClient::query` (`lib.rs` lines 241-278).  Returns the list of
RPC requests issued together with the result.  Faithful to the source order:
the height is converted to a tendermint height first (failing with an
"Invalid height" error), then the provability check runs (failing with a
"Cannot prove query" error), both before the single network call; a zero
height is translated to no height parameter; a non-success response code is
turned into an error. -/
def CosmosClient.query (net : AbciNet) (name : String) (data : Path)
    (height_query : Height) (prove : Bool) :
    List AbciRequest × Except Error AbciQuery :=
  match tmHeightTryFrom height_query.revision_height with
  | none => ([], Except.error Error.invalidHeight)
  | some h =>
    if !data.is_provable && prove then
      ([], Except.error (Error.cannotProve data.pathName))
    else
      let heightParam : Option Nat := if h == 0 then none else some h
      let req : AbciRequest :=
        { path := IBC_QUERY_PATH, data := data.pathName, height := heightParam, prove := prove }
      match net req with
      | Except.error _ =>
          ([req], Except.error (Error.failedQueryChain name))
      | Except.ok response =>
          if response.code ≠ 0 then
            ([req], Except.error (Error.queryFailed response.code response.log))
          else
            ([req], Except.ok response)

/-- The error `CosmosClient::query` raises when a proof is requested for a
non-provable path. -/
def unprovableErr (data : Path) : Error :=
  Error.cannotProve data.pathName

/-- `CosmosClientConfig` (`lib.rs` lines 96-139).  `storePref` and
`accountPref` embed the `store_prefix` / `account_prefix` fields. -/
structure CosmosClientConfig where
  name : String
  rpc_url : String
  grpc_url : String
  websocket_url : String
  chain_id : String
  client_id : Option String
  connection_id : Option String
  accountPref : String
  storePref : String
  key_name : String
deriving DecidableEq, Repr

/-- The finality protocols supported by the adapter
(`finality_protocol::FinalityProtocol`). -/
inductive FinalityProtocol where
  | Tendermint
deriving DecidableEq, Repr

/-- The state of a constructed `CosmosClient` (`lib.rs` lines 66-94), with the
opaque transport handles elided and identifiers kept as validated strings.
`commitmentPref` embeds the `commitment_prefix` field. -/
structure CosmosClientSt where
  name : String
  grpc_url : String
  websocket_url : String
  chain_id : String
  client_id : Option String
  connection_id : Option String
  accountPref : String
  commitmentPref : List Nat
  channel_whitelist : List (String × String)
  finality_protocol : FinalityProtocol
deriving DecidableEq, Repr

/-- The fallible external constructors invoked by `CosmosClient::new`, as
oracles: `HttpClient::new`, `ClientId::new(s, 0)`,
`LightClient::init_light_client`, `KeyEntry::new`, and
`CommitmentPrefix::try_from`. -/
structure NewOracles where
  httpClientNew : String → Except Error Unit
  clientIdNew : String → Except Error String
  initLightClient : String → Except Error Unit
  keyEntryNew : String → String → Except Error Unit
  commitmentTryFrom : List Nat → Except Error (List Nat)

/-- The UTF-8 bytes of a string, for `as_bytes().to_vec()`. -/
def strBytes (s : String) : List Nat :=
  s.toList.map (fun c => c.toNat)

/-- `CosmosClient::new` (`lib.rs` lines 147-181), faithful to the source
order of effects.  Note the source line 152 reads
`config.client_id.unwrap()`: when the optional client id is absent the
constructor panics (modelled as `Error.panic`) instead of producing an
adapter with an unset client id. -/
def CosmosClient.new (o : NewOracles) (config : CosmosClientConfig) :
    Except Error CosmosClientSt := do
  let _ ← o.httpClientNew config.rpc_url
  let chain_id := config.chain_id
  let rawClientId ← match config.client_id with
    | none => Except.error Error.panic
    | some s => Except.ok s
  let client_id ← (o.clientIdNew rawClientId).mapError
    (fun _ => Error.invalidClientId)
  let _ ← (o.initLightClient config.rpc_url).mapError
    (fun _ => Error.lightClientInitFailed config.name)
  let _ ← o.keyEntryNew config.key_name chain_id
  let commitmentPref ← (o.commitmentTryFrom (strBytes config.storePref)).mapError
    (fun _ => Error.invalidStorePref)
  Except.ok
    { name := config.name
      grpc_url := config.grpc_url
      websocket_url := config.websocket_url
      chain_id := chain_id
      client_id := some client_id
      connection_id := none
      accountPref := config.accountPref
      commitmentPref := commitmentPref
      channel_whitelist := []
      finality_protocol := FinalityProtocol.Tendermint }

/-- `CosmosClient::set_client_id` (`lib.rs` lines 187-189). -/
def CosmosClient.set_client_id (c : CosmosClientSt) (client_id : String) : CosmosClientSt :=
  { c with client_id := some client_id }

/-- `sync_info` of a tendermint `status` response. -/
structure SyncInfo where
  catching_up : Bool
  latest_block_time : Nat
  latest_block_height : Nat
deriving DecidableEq, Repr

/-- `node_info` of a tendermint `status` response. -/
structure NodeInfo where
  network : String
deriving DecidableEq, Repr

/-- A tendermint `status` RPC response, restricted to the fields the adapter
reads. -/
structure StatusResponse where
  sync_info : SyncInfo
  node_info : NodeInfo
deriving DecidableEq, Repr

/-- `IbcProvider::latest_height_and_timestamp` for `CosmosClient`
(`provider.rs` lines 262-280).  `chainVersion` is the `ibc` crate's
`ChainId::chain_version`, consumed opaquely; `statusResult` is the outcome of
the `status` RPC call. -/
def latest_height_and_timestamp (chainVersion : String → Nat)
    (statusResult : Except Error StatusResponse) :
    Except Error (Height × Nat) :=
  match statusResult with
  | Except.error e => Except.error e
  | Except.ok response =>
    if response.sync_info.catching_up then
      Except.error Error.nodeSyncing
    else
      Except.ok
        (⟨chainVersion response.node_info.network,
          response.sync_info.latest_block_height⟩,
         response.sync_info.latest_block_time)

/-- A trust threshold fraction (`TrustThreshold`). -/
structure TrustThreshold where
  numerator : Nat
  denominator : Nat
deriving DecidableEq, Repr

/-- `TrustThreshold::default()`: one third. -/
def TrustThreshold.default : TrustThreshold := ⟨1, 3⟩

/-- A tendermint client state (`ics07_tendermint::client_state::ClientState`),
restricted to the fields `initialize_client_state` sets.  Durations are in
seconds. -/
structure TmClientState where
  chain_id : String
  trust_level : TrustThreshold
  trusting_period : Nat
  unbonding_period : Nat
  max_clock_drift : Nat
  latest_height : Height
  upgrade_path : List String
deriving DecidableEq, Repr

/-- A block header, kept abstract: the adapter only forwards it. -/
structure Header where
  headerData : Nat
deriving DecidableEq, Repr

/-- A signed header, as carried by a verified light block. -/
structure SignedHeader where
  header : Header
deriving DecidableEq, Repr

/-- A verified light block (`tendermint_verifier` output). -/
structure LightBlock where
  signed_header : SignedHeader
deriving DecidableEq, Repr

/-- A tendermint consensus state, as derived from a header
(`TmConsensusState::from`). -/
structure TmConsensusState where
  fromHeader : Header
deriving DecidableEq, Repr

/-- `TmConsensusState::from(header)`. -/
def TmConsensusState.fromH (h : Header) : TmConsensusState := ⟨h⟩

/-- `IbcProvider::initialize_client_state` for `CosmosClient` (`provider.rs`
lines 521-550).  `csValid` is the parameter validation performed by
`TmClientState::new` (external `ics07_tendermint` crate, consumed opaquely);
`verify` is `LightClient::verify` (external `tendermint_verifier` crate,
consumed opaquely).  The source line 524 calls `.unwrap()` on the result of
`latest_height_and_timestamp`, so a failing status query panics. -/
def initialize_client_state (chainVersion : String → Nat)
    (statusResult : Except Error StatusResponse)
    (csValid : TmClientState → Bool)
    (verify : Height → Height → TmClientState → Except Error LightBlock)
    (chain_id : String) :
    Except Error (TmClientState × TmConsensusState) :=
  match latest_height_and_timestamp chainVersion statusResult with
  | Except.error _ => Except.error Error.panic
  | Except.ok latest_height_timestamp =>
    let client_state : TmClientState :=
      { chain_id := chain_id
        trust_level := TrustThreshold.default
        trusting_period := 64000
        unbonding_period := 128000
        max_clock_drift := 15
        latest_height := latest_height_timestamp.1
        upgrade_path := ["upgrade", "upgradedIBCState"] }
    if csValid client_state then
      match verify latest_height_timestamp.1 latest_height_timestamp.1 client_state with
      | Except.error _ => Except.error Error.invalidLightBlock
      | Except.ok light_block =>
        Except.ok (client_state, TmConsensusState.fromH light_block.signed_header.header)
    else
      Except.error Error.invalidClientState

/-- A decoded IBC channel end, kept abstract: the adapter only decodes and
repackages it. -/
structure ChannelEnd where
  endData : Nat
deriving DecidableEq, Repr

/-- The `QueryChannelResponse` built by `query_channel_end`. -/
structure QueryChannelResponse where
  channel : Option ChannelEnd
  proof : List Nat
  proof_height : Option Height
deriving DecidableEq, Repr

/-- `ChannelEndsPath(port_id, channel_id)` from the `ibc` crate: rendered as
`channelEnds/ports/P/channels/C`, and provable. -/
def ChannelEndsPath (port_id channel_id : String) : Path :=
  { pathName := "channelEnds/ports/" ++ port_id ++ "/channels/" ++ channel_id,
    provable := true }

/-- `IbcProvider::query_channel_end` for `CosmosClient` (`provider.rs` lines
198-217).  `decode` is `ChannelEnd::decode_vec` (external protobuf decoding,
consumed opaquely).  Returns the issued requests together with the result.
The source builds the response with `proof: vec![]`, discarding the proof
bytes of the ABCI response it requested with `prove = true`. -/
def query_channel_end (net : AbciNet) (decode : List Nat → Except Error ChannelEnd)
    (name : String) (at_ : Height) (channel_id port_id : String) :
    List AbciRequest × Except Error QueryChannelResponse :=
  let res := CosmosClient.query net name (ChannelEndsPath port_id channel_id) at_ true
  match res.2 with
  | Except.error e => (res.1, Except.error e)
  | Except.ok r =>
    match decode r.value with
    | Except.error _ => (res.1, Except.error Error.decodeError)
    | Except.ok channel_end =>
      (res.1, Except.ok { channel := some channel_end, proof := [], proof_height := some at_ })

/-- One entry of a `client_states` gRPC response
(`IdentifiedClientState`), restricted to the identifier the adapter reads. -/
structure IdentifiedClientState where
  client_id : String
deriving DecidableEq, Repr

/-- One entry of a `channels` gRPC response (`IdentifiedChannel`), restricted
to the identifiers the adapter reads. -/
structure IdentifiedChannel where
  channel_id : String
  port_id : String
deriving DecidableEq, Repr

/-- `IbcProvider::query_clients` for `CosmosClient` (`provider.rs` lines
429-455).  `parseClientId` is `ClientId::from_str` (external `ibc` crate,
consumed opaquely: `none` models a parse failure); `netResp` is the outcome
of the `client_states` gRPC call.  Entries whose identifier fails to parse
are dropped by `filter_map`. -/
def query_clients (parseClientId : String → Option String)
    (netResp : Except Error (List IdentifiedClientState)) :
    Except Error (List String) :=
  match netResp with
  | Except.error _ => Except.error (Error.grpcError "Failed to query client states from grpc client")
  | Except.ok response =>
    Except.ok (response.filterMap (fun cs => parseClientId cs.client_id))

/-- `IbcProvider::query_channels` for `CosmosClient` (`provider.rs` lines
457-479).  `parseChannelId` / `parsePortId` are `ChannelId::from_str` /
`PortId::from_str`; an entry is dropped when either identifier fails to
parse. -/
def query_channels (parseChannelId parsePortId : String → Option String)
    (netResp : Except Error (List IdentifiedChannel)) :
    Except Error (List (String × String)) :=
  match netResp with
  | Except.error _ => Except.error (Error.grpcError "channels query failed")
  | Except.ok response =>
    Except.ok (response.filterMap (fun c =>
      match parseChannelId c.channel_id with
      | none => none
      | some id =>
        match parsePortId c.port_id with
        | none => none
        | some port_id => some (id, port_id)))

/-- A raw ABCI event attached to a transaction result, kept abstract: the
adapter consumes it only through parsing/extraction functions. -/
structure AbciEvent where
  eventType : String
  attributes : List (String × String)
deriving DecidableEq, Repr

/-- The domain IBC event type.  Modelled from the spec: the `IbcEvent` tagged
union lives in the external `ibc` crate; §3 lists its variants (client
created/updated, connection open-init/try/ack/confirm, channel
open-init/try/ack/confirm/close, packet send/receive/acknowledge/timeout)
plus the block-level `NewBlock` event the pipeline synthesizes. -/
inductive IbcEvent where
  | NewBlock (height : Height)
  | CreateClient (client_id : String)
  | UpdateClient (client_id : String)
  | OpenInitConnection
  | OpenTryConnection
  | OpenAckConnection
  | OpenConfirmConnection
  | OpenInitChannel
  | OpenTryChannel
  | OpenAckChannel
  | OpenConfirmChannel
  | CloseInitChannel
  | CloseConfirmChannel
  | SendPacket
  | ReceivePacket
  | AcknowledgePacket
  | TimeoutPacket
deriving DecidableEq, Repr

/-- Modelled from the spec: `event_is_type_client` lives in `utils.rs`, which
is not under `src/`; per §4.3 a client-tagged subscription keeps exactly the
events whose semantic type belongs to the client module. -/
def event_is_type_client : IbcEvent → Bool
  | IbcEvent.CreateClient _ => true
  | IbcEvent.UpdateClient _ => true
  | _ => false

/-- Modelled from the spec: `event_is_type_connection` lives in `utils.rs`,
which is not under `src/`; connection-module events are the connection
handshake events of §3. -/
def event_is_type_connection : IbcEvent → Bool
  | IbcEvent.OpenInitConnection => true
  | IbcEvent.OpenTryConnection => true
  | IbcEvent.OpenAckConnection => true
  | IbcEvent.OpenConfirmConnection => true
  | _ => false

/-- Modelled from the spec: `event_is_type_channel` lives in `utils.rs`, which
is not under `src/`; channel-module events are the channel handshake/close
events and the packet events of §3. -/
def event_is_type_channel : IbcEvent → Bool
  | IbcEvent.OpenInitChannel => true
  | IbcEvent.OpenTryChannel => true
  | IbcEvent.OpenAckChannel => true
  | IbcEvent.OpenConfirmChannel => true
  | IbcEvent.CloseInitChannel => true
  | IbcEvent.CloseConfirmChannel => true
  | IbcEvent.SendPacket => true
  | IbcEvent.ReceivePacket => true
  | IbcEvent.AcknowledgePacket => true
  | IbcEvent.TimeoutPacket => true
  | _ => false

/-- The four subscription queries opened by `ibc_events` (`provider.rs` lines
93-98); their rendered query strings are pairwise distinct, so they embed as
an enumeration. -/
inductive SubQuery where
  | newBlock
  | moduleClient
  | moduleConnection
  | moduleChannel
deriving DecidableEq, Repr

/-- The payload of a websocket notification
(`tendermint_rpc::event::EventData`), restricted to what `ibc_events`
matches on. -/
inductive EventData where
  | newBlockData (height : Height)
  | txData (events : List AbciEvent)
  | otherData
deriving DecidableEq, Repr

/-- A websocket notification: payload plus the query of the subscription that
delivered it. -/
structure RpcEvent where
  data : EventData
  query : SubQuery
deriving DecidableEq, Repr

/-- Modelled from the spec: the INTENDED per-notification extraction of
`ibc_events` (spec §4.3), following the classification guard chain written
at `provider.rs` lines 115-144.  This is deliberately not an embedding of
the source function, because that function is broken and has no behavior to
embed: line 113 declares the accumulator `let mut events: Vec<IbcEvent>`,
but line 114's destructuring `let Event ... = event;` shadows it with the
notification's raw-events field (an optional map of strings, which has no
`push`), so the pushed list is never built nor returned, and the NewBlock
arm references an unbound `height`; the function does not compile.  The
guard chain itself is taken from the source: a raw event is kept only when
`parse` (`ibc_event_try_from_abci_event` from `utils.rs`, consumed opaquely)
succeeds and the event's type matches the delivering subscription's module
tag, and events that fail to parse are skipped silently. -/
def extractIbcEvents (parse : AbciEvent → Except String IbcEvent)
    (ev : RpcEvent) : List IbcEvent :=
  match ev.data with
  | EventData.newBlockData height =>
    if ev.query = SubQuery.newBlock then [IbcEvent.NewBlock height] else []
  | EventData.txData raws =>
    raws.filterMap (fun abci_event =>
      match parse abci_event with
      | Except.error _ => none
      | Except.ok ibc_event =>
        if ev.query = SubQuery.moduleClient ∧ event_is_type_client ibc_event then
          some ibc_event
        else if ev.query = SubQuery.moduleConnection ∧ event_is_type_connection ibc_event then
          some ibc_event
        else if ev.query = SubQuery.moduleChannel ∧ event_is_type_channel ibc_event then
          some ibc_event
        else
          none)
  | EventData.otherData => []

/-- Whether an event's semantic type matches a subscription's module tag:
the disjunction of the three guarded cases in `ibc_events`. -/
def moduleMatches (q : SubQuery) (e : IbcEvent) : Bool :=
  match q with
  | SubQuery.moduleClient => event_is_type_client e
  | SubQuery.moduleConnection => event_is_type_connection e
  | SubQuery.moduleChannel => event_is_type_channel e
  | SubQuery.newBlock => false

/-- The execution result of an included transaction
(`tendermint_rpc::endpoint::tx::Response::tx_result`): result code (`0` is
success), log, and attached ABCI events. -/
structure TxResult where
  code : Nat
  log : String
  events : List AbciEvent
deriving DecidableEq, Repr

/-- A `tx_search` hit (`tendermint_rpc::endpoint::tx::Response`), restricted
to the execution result the adapter reads. -/
structure TxResponse where
  tx_result : TxResult
deriving DecidableEq, Repr

/-- The attributes extracted from a client-creation event
(`ibc::core::ics02_client::events::Attributes`), restricted to the client
id the adapter reads. -/
structure ClientAttributes where
  client_id : String
deriving DecidableEq, Repr

/-- `WAIT_BACKOFF` (`provider.rs` line 557), in milliseconds. -/
def WAIT_BACKOFF : Nat := 300

/-- `TIME_OUT` (`provider.rs` line 558), in milliseconds. -/
def TIME_OUT : Nat := 30000

/-- The inclusion-timeout error raised by the search loop. -/
def timeoutErr : Error := Error.txTimeout

/-- The search loop of `query_client_id_from_tx_hash` (`provider.rs` lines
561-587), made explicit in time.  `txSearch i` is the outcome of the i-th
`tx_search` call (the list of hits, of which the source takes the first);
`dur i` is the wall-clock duration of that call in milliseconds; `elapsed`
is the time elapsed since `start_time` when the i-th call begins.  Each
continuing iteration adds the 300ms sleep.  The source loop is unbounded, so
the embedding is fuel-indexed: `none` means the loop is still running after
`fuel` iterations.  On exit it returns the elapsed time together with the
result; the timeout error fires only when the elapsed time measured after a
miss strictly exceeds `TIME_OUT`, exactly as the source's
`if &elapsed > &TIME_OUT`. -/
def searchLoop (txSearch : Nat → Except Error (List TxResponse)) (dur : Nat → Nat) :
    Nat → Nat → Nat → Option (Nat × Except Error TxResponse)
  | 0, _, _ => none
  | fuel + 1, i, elapsed =>
    let elapsedAfter := elapsed + dur i
    match txSearch i with
    | Except.error _ =>
      some (elapsedAfter, Except.error Error.txSearchFailed)
    | Except.ok txs =>
      match txs.head? with
      | some resp => some (elapsedAfter, Except.ok resp)
      | none =>
        if elapsedAfter > TIME_OUT then
          some (elapsedAfter, Except.error timeoutErr)
        else
          searchLoop txSearch dur fuel (i + 1) (elapsedAfter + WAIT_BACKOFF)

/-- The post-inclusion tail of `query_client_id_from_tx_hash` (`provider.rs`
lines 591-616).  `extract` is `client_extract_attributes_from_tx` from
`utils.rs`, consumed opaquely (`none` models an event that carries no
client-creation attributes).  On a failing execution code the error carries
the code and log; otherwise the client-creation events are collected and the
call fails unless exactly one was found. -/
def resolveClientIdFromResponse (extract : AbciEvent → Option ClientAttributes)
    (response : TxResponse) : Except Error String :=
  let deliver_tx_result := response.tx_result
  if deliver_tx_result.code ≠ 0 then
    Except.error (Error.txFailed deliver_tx_result.code deliver_tx_result.log)
  else
    let result := deliver_tx_result.events.filterMap extract
    if h : result.length = 1 then
      Except.ok (result.get ⟨0, by omega⟩).client_id
    else
      Except.error (Error.unexpectedEventCount result.length)

/-- `IbcProvider::query_client_id_from_tx_hash` for `CosmosClient`
(`provider.rs` lines 552-616): the fuel-indexed search loop followed by the
execution-result checks. -/
def query_client_id_from_tx_hash (extract : AbciEvent → Option ClientAttributes)
    (txSearch : Nat → Except Error (List TxResponse)) (dur : Nat → Nat)
    (fuel : Nat) : Option (Except Error String) :=
  match searchLoop txSearch dur fuel 0 0 with
  | none => none
  | some (_, Except.error e) => some (Except.error e)
  | some (_, Except.ok response) => some (resolveClientIdFromResponse extract response)

/-- The sum of the durations of `n` consecutive search calls starting at
index `i`. -/
def sumDur (dur : Nat → Nat) : Nat → Nat → Nat
  | _, 0 => 0
  | i, n + 1 => dur i + sumDur dur (i + 1) n

/-- A transport oracle that always fails, for concrete instantiations. -/
def netNever : AbciNet := fun _ => Except.error (Error.rpcError "unreachable")

/-- A transport oracle that always answers with a successful response
carrying non-empty proof bytes, for concrete instantiations. -/
def netOk : AbciNet := fun _ =>
  Except.ok { code := 0, log := "", value := [], proof := [1, 2, 3] }

/-- Claim C1, as stated, is false: `CosmosClient::query` converts the height
to a tendermint height before running the provability check, so at the
non-provable path below and a height whose revision height is `2 ^ 63`
(above `i64::MAX`) the call with `want_proof = true` fails with the
invalid-height error, not with the unprovable-path error. -/
theorem C1_counterexample :
    CosmosClient.query netNever "chain_a" ⟨"clientStates", false⟩ ⟨0, 2 ^ 63⟩ true
      = ([], Except.error Error.invalidHeight)
    ∧ (CosmosClient.query netNever "chain_a" ⟨"clientStates", false⟩ ⟨0, 2 ^ 63⟩ true).2
      ≠ Except.error (unprovableErr ⟨"clientStates", false⟩) := by
  constructor
  · rfl
  · intro h
    simp [CosmosClient.query, tmHeightTryFrom, I64_MAX, unprovableErr] at h

/-- Claim C1 (amended to heights whose revision height fits in a signed
64-bit integer): for every such height, querying a non-provable path with
`want_proof = true` fails with the unprovable-path error and issues no
network request; and whenever the path is provable or `want_proof` is false,
the provability check never rejects (the result is never the unprovable-path
error). -/
theorem C1_unprovable_rejected_locally (net : AbciNet) (name : String)
    (data : Path) (h : Height) (prove : Bool) :
    (data.is_provable = false → prove = true → h.revision_height ≤ I64_MAX →
      CosmosClient.query net name data h prove
        = ([], Except.error (unprovableErr data)))
    ∧ (data.is_provable = true ∨ prove = false →
      (CosmosClient.query net name data h prove).2
        ≠ Except.error (unprovableErr data)) := by
  constructor
  · intro hprov hprove hle
    simp [CosmosClient.query, tmHeightTryFrom, hle, hprov, hprove, unprovableErr]
  · intro hcase
    unfold CosmosClient.query
    cases htm : tmHeightTryFrom h.revision_height with
    | none => simp [unprovableErr]
    | some hv =>
      have hcond : (!data.is_provable && prove) = false := by
        rcases hcase with h1 | h1 <;> simp [h1]
      simp only [hcond, Bool.false_eq_true, if_false]
      cases hnet : net
          (⟨IBC_QUERY_PATH, data.pathName, if hv == 0 then none else some hv,
            prove⟩ : AbciRequest) with
      | error e => simp [hnet, unprovableErr]
      | ok response =>
        by_cases hcode : response.code = 0 <;> simp [hnet, hcode, unprovableErr]

/-- Concrete instantiation of the amended claim C1: the non-provable path at
a small height with a proof requested is rejected locally with no request
issued. -/
theorem C1_unprovable_witness :
    CosmosClient.query netNever "chain_a" ⟨"clientStates", false⟩ ⟨0, 5⟩ true
      = ([], Except.error (unprovableErr ⟨"clientStates", false⟩)) :=
  (C1_unprovable_rejected_locally netNever "chain_a" ⟨"clientStates", false⟩
    ⟨0, 5⟩ true).1 rfl rfl (by decide)

/-- Claim C8: every request that `CosmosClient::query` sends carries no
height parameter exactly when the query height's revision height is the zero
sentinel, and otherwise carries that revision height verbatim. -/
theorem C8_zero_height_queries_head (net : AbciNet) (name : String)
    (data : Path) (h : Height) (prove : Bool) (req : AbciRequest)
    (hreq : req ∈ (CosmosClient.query net name data h prove).1) :
    req.height = if h.revision_height = 0 then none else some h.revision_height := by
  unfold CosmosClient.query at hreq
  cases htm : tmHeightTryFrom h.revision_height with
  | none => simp [htm] at hreq
  | some hv =>
    have hv_eq : hv = h.revision_height := by
      unfold tmHeightTryFrom at htm
      by_cases hle : h.revision_height ≤ I64_MAX <;> simp [hle] at htm
      omega
    subst hv_eq
    simp only [htm] at hreq
    by_cases hcond : (!data.is_provable && prove) = true
    · simp [hcond] at hreq
    · simp only [Bool.not_eq_true] at hcond
      simp only [hcond, Bool.false_eq_true, if_false] at hreq
      cases hnet : net
          (⟨IBC_QUERY_PATH, data.pathName,
            if h.revision_height == 0 then none else some h.revision_height,
            prove⟩ : AbciRequest) with
      | error e =>
        rw [hnet] at hreq
        simp at hreq
        subst hreq
        simp [beq_iff_eq]
      | ok response =>
        rw [hnet] at hreq
        have hreq2 : req = ⟨IBC_QUERY_PATH, data.pathName,
            if h.revision_height = 0 then none else some h.revision_height, prove⟩ := by
          by_cases hcode : response.code = 0 <;> simp [hcode] at hreq <;> exact hreq
        subst hreq2
        rfl

/-- Concrete instantiation of claim C8: a query at revision height 7 sends
the request with height parameter 7. -/
theorem C8_witness :
    (⟨IBC_QUERY_PATH, "clientStates", some 7, false⟩ : AbciRequest).height
      = if (7 : Nat) = 0 then none else some (7 : Nat) :=
  C8_zero_height_queries_head netOk "chain_a" ⟨"clientStates", true⟩ ⟨0, 7⟩ false
    (⟨IBC_QUERY_PATH, "clientStates", some 7, false⟩ : AbciRequest) (by decide)

/-- Helper: on a non-syncing status response, `latest_height_and_timestamp`
returns the reported height and block time. -/
theorem latest_ok_of_not_syncing (chainVersion : String → Nat)
    (response : StatusResponse)
    (hsync : response.sync_info.catching_up = false) :
    latest_height_and_timestamp chainVersion (Except.ok response)
      = Except.ok
          (⟨chainVersion response.node_info.network,
            response.sync_info.latest_block_height⟩,
           response.sync_info.latest_block_time) := by
  simp [latest_height_and_timestamp, hsync]

/-- Claim C10: `latest_height_and_timestamp` fails with the node-syncing
error exactly when the status response reports the node is catching up, and
otherwise returns the reported latest block height (with the chain version
of the reported network) and the reported latest block time. -/
theorem C10_syncing_node_rejected (chainVersion : String → Nat)
    (response : StatusResponse) :
    (response.sync_info.catching_up = true →
      latest_height_and_timestamp chainVersion (Except.ok response)
        = Except.error Error.nodeSyncing)
    ∧ (response.sync_info.catching_up = false →
      latest_height_and_timestamp chainVersion (Except.ok response)
        = Except.ok
            (⟨chainVersion response.node_info.network,
              response.sync_info.latest_block_height⟩,
             response.sync_info.latest_block_time)) := by
  exact ⟨fun hsync => by simp [latest_height_and_timestamp, hsync],
    fun hsync => latest_ok_of_not_syncing chainVersion response hsync⟩

/-- Concrete instantiation of claim C10: a non-syncing node at height 100
yields that height and the reported block time. -/
theorem C10_witness :
    latest_height_and_timestamp (fun _ => 0)
        (Except.ok ⟨⟨false, 1234, 100⟩, ⟨"ibc-0"⟩⟩)
      = Except.ok (⟨0, 100⟩, 1234) :=
  (C10_syncing_node_rejected (fun _ => 0) ⟨⟨false, 1234, 100⟩, ⟨"ibc-0"⟩⟩).2 rfl

/-- Oracles under which every external constructor invoked by
`CosmosClient::new` succeeds. -/
def oraclesOk : NewOracles :=
  { httpClientNew := fun _ => Except.ok ()
    clientIdNew := fun s => Except.ok (s ++ "-0")
    initLightClient := fun _ => Except.ok ()
    keyEntryNew := fun _ _ => Except.ok ()
    commitmentTryFrom := fun b => Except.ok b }

/-- The configuration of the testsuite's chain_a with the optional light
client id left absent. -/
def configNoClientId : CosmosClientConfig :=
  { name := "chain_a"
    rpc_url := "http://127.0.0.1:27030"
    grpc_url := "http://127.0.0.1:27032"
    websocket_url := "ws://127.0.0.1:27030/websocket"
    chain_id := "ibc-0"
    client_id := none
    connection_id := none
    accountPref := "cosmos"
    storePref := "ibc"
    key_name := "wallet" }

/-- Claim C7 describes the intended behavior, but the code violates it:
`CosmosClient::new` calls `config.client_id.unwrap()` (`lib.rs` line 152),
so with the optional client id absent construction panics even when every
external constructor succeeds, instead of succeeding with an unset client
id. -/
theorem C7_new_panics_without_client_id :
    CosmosClient.new oraclesOk configNoClientId = Except.error Error.panic := rfl

/-- `ChannelEnd::decode_vec` modelled as always succeeding, for concrete
instantiations. -/
def decodeOk : List Nat → Except Error ChannelEnd := fun v => Except.ok ⟨v.length⟩

/-- Claim C6 describes the intended behavior, but the code violates it:
`query_channel_end` issues its state query with `prove = true` on the
provable channel-ends path, the chain answers with non-empty proof bytes
(`netOk` returns proof bytes `[1, 2, 3]`), and yet the response is built
with `proof: vec![]` (`provider.rs` line 214), so the returned proof bytes
are empty. -/
theorem C6_channel_proof_discarded :
    (query_channel_end netOk decodeOk "chain_a" ⟨0, 5⟩ "channel-0" "transfer").1
      = [⟨IBC_QUERY_PATH, "channelEnds/ports/transfer/channels/channel-0",
          some 5, true⟩]
    ∧ (ChannelEndsPath "transfer" "channel-0").is_provable = true
    ∧ (query_channel_end netOk decodeOk "chain_a" ⟨0, 5⟩ "channel-0" "transfer").2
      = Except.ok ⟨some ⟨0⟩, [], some ⟨0, 5⟩⟩ := by
  refine ⟨rfl, rfl, rfl⟩

/-- Claim C9: whenever `initialize_client_state` succeeds on a non-syncing
status response, the returned client state's latest height is the chain's
reported latest height, the client state carries the trust parameters the
source configures (default trust threshold, 64000s trusting period, 128000s
unbonding period, 15s max clock drift), and the consensus state is derived
from the header of the light block verified at exactly that latest
height. -/
theorem C9_initialize_client_state_heights (chainVersion : String → Nat)
    (response : StatusResponse) (csValid : TmClientState → Bool)
    (verify : Height → Height → TmClientState → Except Error LightBlock)
    (chain_id : String) (cs : TmClientState) (cons : TmConsensusState)
    (hsync : response.sync_info.catching_up = false)
    (hres : initialize_client_state chainVersion (Except.ok response) csValid verify chain_id
      = Except.ok (cs, cons)) :
    cs.latest_height
      = ⟨chainVersion response.node_info.network,
         response.sync_info.latest_block_height⟩
    ∧ cs.chain_id = chain_id
    ∧ cs.trust_level = TrustThreshold.default
    ∧ cs.trusting_period = 64000
    ∧ cs.unbonding_period = 128000
    ∧ cs.max_clock_drift = 15
    ∧ ∃ light_block, verify cs.latest_height cs.latest_height cs = Except.ok light_block
        ∧ cons = TmConsensusState.fromH light_block.signed_header.header := by
  unfold initialize_client_state at hres
  rw [latest_ok_of_not_syncing chainVersion response hsync] at hres
  dsimp only at hres
  by_cases hvalid : csValid ⟨chain_id, TrustThreshold.default, 64000, 128000, 15,
      ⟨chainVersion response.node_info.network, response.sync_info.latest_block_height⟩,
      ["upgrade", "upgradedIBCState"]⟩
  · rw [if_pos hvalid] at hres
    cases hverify : verify
        ⟨chainVersion response.node_info.network, response.sync_info.latest_block_height⟩
        ⟨chainVersion response.node_info.network, response.sync_info.latest_block_height⟩
        ⟨chain_id, TrustThreshold.default, 64000, 128000, 15,
          ⟨chainVersion response.node_info.network, response.sync_info.latest_block_height⟩,
          ["upgrade", "upgradedIBCState"]⟩ with
    | error e => rw [hverify] at hres; exact absurd hres (by simp)
    | ok light_block =>
      rw [hverify] at hres
      simp only [Except.ok.injEq, Prod.mk.injEq] at hres
      obtain ⟨hcs, hcons⟩ := hres
      subst hcs
      exact ⟨rfl, rfl, rfl, rfl, rfl, rfl, light_block, hverify, hcons.symm⟩
  · rw [if_neg hvalid] at hres
    exact absurd hres (by simp)

/-- Concrete instantiation of claim C9: against a chain whose status reports
height 100, a successful initialization yields a client state at latest
height 100 and a consensus state from the header verified at height 100. -/
theorem C9_witness :
    (⟨"ibc-0", TrustThreshold.default, 64000, 128000, 15, ⟨0, 100⟩,
        ["upgrade", "upgradedIBCState"]⟩ : TmClientState).latest_height = ⟨0, 100⟩
    ∧ (⟨"ibc-0", TrustThreshold.default, 64000, 128000, 15, ⟨0, 100⟩,
        ["upgrade", "upgradedIBCState"]⟩ : TmClientState).chain_id = "ibc-0"
    ∧ (⟨"ibc-0", TrustThreshold.default, 64000, 128000, 15, ⟨0, 100⟩,
        ["upgrade", "upgradedIBCState"]⟩ : TmClientState).trust_level = TrustThreshold.default
    ∧ (⟨"ibc-0", TrustThreshold.default, 64000, 128000, 15, ⟨0, 100⟩,
        ["upgrade", "upgradedIBCState"]⟩ : TmClientState).trusting_period = 64000
    ∧ (⟨"ibc-0", TrustThreshold.default, 64000, 128000, 15, ⟨0, 100⟩,
        ["upgrade", "upgradedIBCState"]⟩ : TmClientState).unbonding_period = 128000
    ∧ (⟨"ibc-0", TrustThreshold.default, 64000, 128000, 15, ⟨0, 100⟩,
        ["upgrade", "upgradedIBCState"]⟩ : TmClientState).max_clock_drift = 15
    ∧ ∃ light_block,
        (fun (_ _ : Height) (_ : TmClientState) =>
            (Except.ok ⟨⟨⟨42⟩⟩⟩ : Except Error LightBlock))
          (⟨"ibc-0", TrustThreshold.default, 64000, 128000, 15, ⟨0, 100⟩,
            ["upgrade", "upgradedIBCState"]⟩ : TmClientState).latest_height
          (⟨"ibc-0", TrustThreshold.default, 64000, 128000, 15, ⟨0, 100⟩,
            ["upgrade", "upgradedIBCState"]⟩ : TmClientState).latest_height
          (⟨"ibc-0", TrustThreshold.default, 64000, 128000, 15, ⟨0, 100⟩,
            ["upgrade", "upgradedIBCState"]⟩ : TmClientState)
          = Except.ok light_block
        ∧ (⟨⟨42⟩⟩ : TmConsensusState)
          = TmConsensusState.fromH light_block.signed_header.header :=
  C9_initialize_client_state_heights (fun _ => 0) ⟨⟨false, 1234, 100⟩, ⟨"ibc-0"⟩⟩
    (fun _ => true) (fun _ _ _ => Except.ok ⟨⟨⟨42⟩⟩⟩) "ibc-0"
    ⟨"ibc-0", TrustThreshold.default, 64000, 128000, 15, ⟨0, 100⟩,
      ["upgrade", "upgradedIBCState"]⟩ ⟨⟨42⟩⟩ rfl rfl

/-- Claim C3: once the search loop has found the transaction, the operation
continues with exactly that response; a failing execution code yields the
transaction-failed error carrying that code and log; with a successful code
the extracted client-creation events decide the outcome — an
unexpected-event-count error when their number differs from one, and the
single creation event's client id when there is exactly one. -/
theorem C3_client_id_resolution (extract : AbciEvent → Option ClientAttributes)
    (txSearch : Nat → Except Error (List TxResponse)) (dur : Nat → Nat)
    (fuel t : Nat) (response : TxResponse)
    (hfound : searchLoop txSearch dur fuel 0 0 = some (t, Except.ok response)) :
    query_client_id_from_tx_hash extract txSearch dur fuel
      = some (resolveClientIdFromResponse extract response)
    ∧ (response.tx_result.code ≠ 0 →
        resolveClientIdFromResponse extract response
          = Except.error
              (Error.txFailed response.tx_result.code response.tx_result.log))
    ∧ (response.tx_result.code = 0 →
        (response.tx_result.events.filterMap extract).length ≠ 1 →
        resolveClientIdFromResponse extract response
          = Except.error (Error.unexpectedEventCount
              (response.tx_result.events.filterMap extract).length))
    ∧ (∀ a, response.tx_result.code = 0 →
        response.tx_result.events.filterMap extract = [a] →
        resolveClientIdFromResponse extract response = Except.ok a.client_id) := by
  refine ⟨?_, ?_, ?_, ?_⟩
  · unfold query_client_id_from_tx_hash
    rw [hfound]
  · intro hcode
    simp [resolveClientIdFromResponse, hcode]
  · intro hcode hlen
    simp [resolveClientIdFromResponse, hcode, hlen]
  · intro a hcode hextract
    simp [resolveClientIdFromResponse, hcode, hextract]

/-- Extraction of client-creation attributes used in concrete
instantiations: events of type create_client carry a fixed client id. -/
def extractDemo : AbciEvent → Option ClientAttributes := fun e =>
  if e.eventType = "create_client" then some ⟨"07-tendermint-0"⟩ else none

/-- A successful transaction response carrying one client-creation event and
one unrelated event. -/
def respDemo : TxResponse :=
  ⟨⟨0, "", [⟨"create_client", []⟩, ⟨"send_packet", []⟩]⟩⟩

/-- A search oracle that misses twice and then finds `respDemo`. -/
def txDemo : Nat → Except Error (List TxResponse) := fun i =>
  if i < 2 then Except.ok [] else Except.ok [respDemo]

/-- Search calls of zero duration, for concrete instantiations. -/
def durZero : Nat → Nat := fun _ => 0

/-- Concrete instantiation of claim C3: with the transaction found on the
third poll, the operation resolves the single creation event's client id. -/
theorem C3_witness :
    query_client_id_from_tx_hash extractDemo txDemo durZero 3
      = some (resolveClientIdFromResponse extractDemo respDemo)
    ∧ resolveClientIdFromResponse extractDemo respDemo
      = Except.ok "07-tendermint-0" :=
  have h := C3_client_id_resolution extractDemo txDemo durZero 3 600 respDemo rfl
  ⟨h.1, h.2.2.2 ⟨"07-tendermint-0"⟩ rfl rfl⟩

/-- Claim C5: the enumeration queries drop each entry whose identifier fails
to parse (removing a malformed entry from the response leaves the result
unchanged) and return successfully with every well-formed entry kept, for
`query_clients` and `query_channels` alike. -/
theorem C5_enumerations_drop_malformed (parseClientId : String → Option String)
    (parseChannelId parsePortId : String → Option String) :
    (∀ l1 bad l2, parseClientId bad.client_id = none →
      query_clients parseClientId (Except.ok (l1 ++ bad :: l2))
        = query_clients parseClientId (Except.ok (l1 ++ l2)))
    ∧ (∀ states, ∃ l,
        query_clients parseClientId (Except.ok states) = Except.ok l
        ∧ ∀ cs id, cs ∈ states → parseClientId cs.client_id = some id → id ∈ l)
    ∧ (∀ l1 bad l2,
        parseChannelId bad.channel_id = none ∨ parsePortId bad.port_id = none →
      query_channels parseChannelId parsePortId (Except.ok (l1 ++ bad :: l2))
        = query_channels parseChannelId parsePortId (Except.ok (l1 ++ l2)))
    ∧ (∀ chans, ∃ l,
        query_channels parseChannelId parsePortId (Except.ok chans) = Except.ok l
        ∧ ∀ c cid pid, c ∈ chans → parseChannelId c.channel_id = some cid →
            parsePortId c.port_id = some pid → (cid, pid) ∈ l) := by
  refine ⟨?_, ?_, ?_, ?_⟩
  · intro l1 bad l2 hbad
    simp [query_clients, List.filterMap_append, List.filterMap_cons, hbad]
  · intro states
    refine ⟨_, rfl, ?_⟩
    intro cs id hmem hparse
    exact List.mem_filterMap.mpr ⟨cs, hmem, hparse⟩
  · intro l1 bad l2 hbad
    have hdrop : (match parseChannelId bad.channel_id with
        | none => none
        | some id =>
          match parsePortId bad.port_id with
          | none => none
          | some port_id => some (id, port_id)) = (none : Option (String × String)) := by
      rcases hbad with hbad | hbad
      · simp [hbad]
      · cases hc : parseChannelId bad.channel_id <;> simp [hbad]
    simp [query_channels, List.filterMap_append, List.filterMap_cons, hdrop]
  · intro chans
    refine ⟨_, rfl, ?_⟩
    intro c cid pid hmem hc hp
    refine List.mem_filterMap.mpr ⟨c, hmem, ?_⟩
    simp [hc, hp]

/-- An identifier parser that rejects exactly the string malformed, for
concrete instantiations. -/
def parseIdDemo : String → Option String := fun s =>
  if s = "malformed" then none else some s

/-- Concrete instantiation of claim C5: a response with one malformed and
two well-formed identifiers enumerates as if the malformed entry were
absent, succeeding with the well-formed ones. -/
theorem C5_witness :
    query_clients parseIdDemo
        (Except.ok [⟨"07-tendermint-0"⟩, ⟨"malformed"⟩, ⟨"07-tendermint-1"⟩])
      = query_clients parseIdDemo
          (Except.ok [⟨"07-tendermint-0"⟩, ⟨"07-tendermint-1"⟩])
    ∧ ∃ l, query_clients parseIdDemo
        (Except.ok [⟨"07-tendermint-0"⟩, ⟨"malformed"⟩, ⟨"07-tendermint-1"⟩])
        = Except.ok l ∧ "07-tendermint-0" ∈ l := by
  have h := C5_enumerations_drop_malformed parseIdDemo parseIdDemo parseIdDemo
  refine ⟨h.1 [⟨"07-tendermint-0"⟩] ⟨"malformed"⟩ [⟨"07-tendermint-1"⟩] rfl, ?_⟩
  obtain ⟨l, hl, hkeep⟩ := h.2.1
    [⟨"07-tendermint-0"⟩, ⟨"malformed"⟩, ⟨"07-tendermint-1"⟩]
  exact ⟨l, hl, hkeep ⟨"07-tendermint-0"⟩ "07-tendermint-0" (by decide) rfl⟩

/-- Helper: the per-raw-event classifier of `extractIbcEvents` keeps an event
exactly when it parses and its type matches the delivering subscription's
module tag. -/
theorem classify_some_iff (parse : AbciEvent → Except String IbcEvent)
    (q : SubQuery) (raw : AbciEvent) (e : IbcEvent) :
    (match parse raw with
      | Except.error _ => none
      | Except.ok ibc_event =>
        if q = SubQuery.moduleClient ∧ event_is_type_client ibc_event then
          some ibc_event
        else if q = SubQuery.moduleConnection ∧ event_is_type_connection ibc_event then
          some ibc_event
        else if q = SubQuery.moduleChannel ∧ event_is_type_channel ibc_event then
          some ibc_event
        else
          none) = some e
    ↔ parse raw = Except.ok e ∧ moduleMatches q e = true := by
  cases hp : parse raw with
  | error msg => simp
  | ok ie =>
    cases q with
    | newBlock => simp [moduleMatches]
    | moduleClient =>
      by_cases hie : event_is_type_client ie <;>
        simp [moduleMatches, hie] <;> aesop
    | moduleConnection =>
      by_cases hie : event_is_type_connection ie <;>
        simp [moduleMatches, hie] <;> aesop
    | moduleChannel =>
      by_cases hie : event_is_type_channel ie <;>
        simp [moduleMatches, hie] <;> aesop

/-- Claim C2 describes the intended behavior, but the code violates it: the
source's `ibc_events` can never yield a classified event, because the
`Vec<IbcEvent>` accumulator of `provider.rs` line 113 is shadowed by the
destructuring on line 114, so the pushed list is never returned (the
function does not even compile).  This theorem settles what the claim says
about the intended extraction `extractIbcEvents`: for a transaction-result
notification, a domain event is yielded if and only if some attached raw
event parses to it and its semantic type matches the delivering
subscription's module tag; and a raw event that fails to parse is dropped
without affecting the extraction of the remaining events. -/
theorem C2_event_classification (parse : AbciEvent → Except String IbcEvent)
    (q : SubQuery) :
    (∀ raws e,
      e ∈ extractIbcEvents parse ⟨EventData.txData raws, q⟩ ↔
        ∃ raw, raw ∈ raws ∧ parse raw = Except.ok e ∧ moduleMatches q e = true)
    ∧ (∀ raws1 bad raws2 msg, parse bad = Except.error msg →
      extractIbcEvents parse ⟨EventData.txData (raws1 ++ bad :: raws2), q⟩
        = extractIbcEvents parse ⟨EventData.txData raws1, q⟩
          ++ extractIbcEvents parse ⟨EventData.txData raws2, q⟩) := by
  constructor
  · intro raws e
    simp only [extractIbcEvents, List.mem_filterMap]
    constructor
    · rintro ⟨raw, hmem, hsome⟩
      exact ⟨raw, hmem, (classify_some_iff parse q raw e).mp hsome⟩
    · rintro ⟨raw, hmem, hok, hmatch⟩
      exact ⟨raw, hmem, (classify_some_iff parse q raw e).mpr ⟨hok, hmatch⟩⟩
  · intro raws1 bad raws2 msg hbad
    simp [extractIbcEvents, List.filterMap_append, List.filterMap_cons, hbad]

/-- A parser for concrete instantiations: create_client raw events parse to
a client-creation event, send_packet raw events to a packet event, and
everything else fails to parse. -/
def parseDemo : AbciEvent → Except String IbcEvent := fun e =>
  if e.eventType = "create_client" then
    Except.ok (IbcEvent.CreateClient "07-tendermint-0")
  else if e.eventType = "send_packet" then
    Except.ok IbcEvent.SendPacket
  else
    Except.error "unhandled event type"

/-- Concrete instantiation of claim C2's intended extraction: from a
transaction carrying one client event, one channel event and one malformed
raw event, the client-tagged subscription yields the client event and does
not yield the channel event. -/
theorem C2_witness :
    IbcEvent.CreateClient "07-tendermint-0"
      ∈ extractIbcEvents parseDemo
          ⟨EventData.txData [⟨"create_client", []⟩, ⟨"send_packet", []⟩,
            ⟨"garbage", []⟩], SubQuery.moduleClient⟩
    ∧ ¬ IbcEvent.SendPacket
      ∈ extractIbcEvents parseDemo
          ⟨EventData.txData [⟨"create_client", []⟩, ⟨"send_packet", []⟩,
            ⟨"garbage", []⟩], SubQuery.moduleClient⟩ := by
  have h := (C2_event_classification parseDemo SubQuery.moduleClient).1
    [⟨"create_client", []⟩, ⟨"send_packet", []⟩, ⟨"garbage", []⟩]
  constructor
  · exact (h (IbcEvent.CreateClient "07-tendermint-0")).mpr
      ⟨⟨"create_client", []⟩, by decide, rfl, rfl⟩
  · intro hmem
    obtain ⟨raw, hmemraw, hok, hmatch⟩ := (h IbcEvent.SendPacket).mp hmem
    simp [moduleMatches, event_is_type_client] at hmatch

/-- Helper: whenever the search loop exits with the inclusion-timeout error,
the elapsed time at that exit strictly exceeds the configured timeout. -/
theorem searchLoop_timeout_late (txSearch : Nat → Except Error (List TxResponse))
    (dur : Nat → Nat) :
    ∀ fuel i elapsed t,
      searchLoop txSearch dur fuel i elapsed = some (t, Except.error timeoutErr) →
      t > TIME_OUT := by
  intro fuel
  induction fuel with
  | zero =>
    intro i elapsed t h
    simp [searchLoop] at h
  | succ f ih =>
    intro i elapsed t h
    rw [searchLoop] at h
    cases hs : txSearch i with
    | error e =>
      rw [hs] at h
      simp [timeoutErr, Error.txSearchFailed] at h
    | ok txs =>
      rw [hs] at h
      dsimp only at h
      cases htxs : txs.head? with
      | some resp =>
        rw [htxs] at h
        simp at h
      | none =>
        rw [htxs] at h
        by_cases hto : elapsed + dur i > TIME_OUT
        · rw [if_pos hto] at h
          simp only [Option.some.injEq, Prod.mk.injEq] at h
          omega
        · rw [if_neg hto] at h
          exact ih (i + 1) (elapsed + dur i + WAIT_BACKOFF) t h

/-- Helper: when the first hit of the search oracle is at poll `k`, every
earlier poll misses without reaching the timeout, and the fuel admits `k`
further iterations, the loop exits with that hit after `k` sleeps. -/
theorem searchLoop_finds (txSearch : Nat → Except Error (List TxResponse))
    (dur : Nat → Nat) :
    ∀ k i elapsed fuel resp rest,
      (∀ j, j < k → txSearch (i + j) = Except.ok []) →
      txSearch (i + k) = Except.ok (resp :: rest) →
      (∀ j, j < k → elapsed + sumDur dur i (j + 1) + j * WAIT_BACKOFF ≤ TIME_OUT) →
      k < fuel →
      searchLoop txSearch dur fuel i elapsed
        = some (elapsed + sumDur dur i (k + 1) + k * WAIT_BACKOFF, Except.ok resp) := by
  intro k
  induction k with
  | zero =>
    intro i elapsed fuel resp rest hmiss hhit hbound hfuel
    match fuel, hfuel with
    | f + 1, _ =>
      rw [searchLoop]
      rw [Nat.add_zero] at hhit
      rw [hhit]
      simp [sumDur]
  | succ k ih =>
    intro i elapsed fuel resp rest hmiss hhit hbound hfuel
    match fuel, hfuel with
    | f + 1, hfuel =>
      rw [searchLoop]
      have h0 : txSearch i = Except.ok [] := by
        have := hmiss 0 (by omega)
        simpa using this
      rw [h0]
      have hnotto : ¬ elapsed + dur i > TIME_OUT := by
        have := hbound 0 (by omega)
        simp [sumDur] at this
        omega
      simp only [List.head?_nil]
      rw [if_neg hnotto]
      have hrec := ih (i + 1) (elapsed + dur i + WAIT_BACKOFF) f resp rest
        (by
          intro j hj
          have := hmiss (j + 1) (by omega)
          rw [show i + (j + 1) = i + 1 + j by omega] at this
          exact this)
        (by
          rw [show i + 1 + k = i + (k + 1) by omega]
          exact hhit)
        (by
          intro j hj
          have := hbound (j + 1) (by omega)
          simp only [sumDur, WAIT_BACKOFF, TIME_OUT] at this ⊢
          omega)
        (by omega)
      rw [hrec]
      have harith : elapsed + dur i + WAIT_BACKOFF + sumDur dur (i + 1) (k + 1)
            + k * WAIT_BACKOFF
          = elapsed + sumDur dur i (k + 1 + 1) + (k + 1) * WAIT_BACKOFF := by
        simp only [sumDur]
        ring
      rw [harith]

/-- Claim C4: the transaction-inclusion wait polls on the fixed 300ms
interval with the fixed 30000ms timeout; whenever it exits with the
inclusion-timeout error the elapsed time strictly exceeds the timeout
(never earlier); and when a matching transaction first appears at a poll
reached before the timeout, the loop exits with exactly that response. -/
theorem C4_inclusion_wait_timing (txSearch : Nat → Except Error (List TxResponse))
    (dur : Nat → Nat) :
    WAIT_BACKOFF = 300
    ∧ TIME_OUT = 30000
    ∧ (∀ fuel i elapsed t,
        searchLoop txSearch dur fuel i elapsed = some (t, Except.error timeoutErr) →
        t > TIME_OUT)
    ∧ (∀ k fuel resp rest,
        (∀ j, j < k → txSearch j = Except.ok []) →
        txSearch k = Except.ok (resp :: rest) →
        (∀ j, j < k → sumDur dur 0 (j + 1) + j * WAIT_BACKOFF ≤ TIME_OUT) →
        k < fuel →
        searchLoop txSearch dur fuel 0 0
          = some (sumDur dur 0 (k + 1) + k * WAIT_BACKOFF, Except.ok resp)) := by
  refine ⟨rfl, rfl, searchLoop_timeout_late txSearch dur, ?_⟩
  intro k fuel resp rest hmiss hhit hbound hfuel
  have := searchLoop_finds txSearch dur k 0 0 fuel resp rest
    (by intro j hj; simpa using hmiss j hj)
    (by simpa using hhit)
    (by intro j hj; simpa using hbound j hj)
    hfuel
  simpa using this

/-- A search oracle that never finds the transaction. -/
def txNone : Nat → Except Error (List TxResponse) := fun _ => Except.ok []

/-- A search call lasting just over the timeout, for concrete
instantiations. -/
def durBig : Nat → Nat := fun _ => 30001

/-- Concrete instantiation of claim C4: a loop that times out does so with
more than 30000ms elapsed, and with the transaction first found on the
third poll (zero-duration searches, under the timeout) the loop returns it
after two 300ms sleeps. -/
theorem C4_witness :
    30001 > TIME_OUT
    ∧ searchLoop txDemo durZero 3 0 0
      = some (sumDur durZero 0 3 + 2 * WAIT_BACKOFF, Except.ok respDemo) := by
  constructor
  · exact (C4_inclusion_wait_timing txNone durBig).2.2.1 1 0 0 30001 rfl
  · exact (C4_inclusion_wait_timing txDemo durZero).2.2.2 2 3 respDemo []
      (fun j hj => by interval_cases j <;> rfl)
      rfl
      (fun j hj => by interval_cases j <;> decide)
      (by omega)

end Centauri
